import Mathlib

/-!
Verification of the SAFT-γ-Mie / SGT specification against the sgtpy repository.

The repository material under `src/` consists of the two example notebooks
(`9. VLLE for binary mixture.ipynb`, `11. SGT for pure fluids.ipynb`) together with
their recorded outputs (parameter matrices, solver results, runtime warnings).
The library routines themselves (combination rules, `sgt_pure`, `vlleb`, unit
conversion, mixture construction) are not present as files, so they are modelled
here from the specification's description of each rule, and the models are
cross-checked against the concrete numbers recorded in the notebook outputs.
-/

namespace SGTPy

/-! ### Mixing and combination rules (spec §4.1) -/

/-- Modelled from the spec: the cross diameter is the arithmetic mean of the like
diameters, `sigma_kl = (sigma_kk + sigma_ll) / 2`. -/
noncomputable def sigmaComb (skk sll : ℝ) : ℝ := (skk + sll) / 2

/-- Modelled from the spec: cross Mie exponents are combined via
`lambda_kl = 3 + sqrt ((lambda_kk - 3) * (lambda_ll - 3))`, used for both the
repulsive and the attractive exponent. -/
noncomputable def lambdaComb (lk ll : ℝ) : ℝ := 3 + Real.sqrt ((lk - 3) * (ll - 3))

/-- Modelled from the spec: the cross energy is a geometric-mean-like combination
weighted by the group diameters,
`eps_kl = sqrt (sigma_kk^3 * sigma_ll^3) / sigma_kl^3 * sqrt (eps_kk * eps_ll)`. -/
noncomputable def epsComb (skk sll ekk ell : ℝ) : ℝ :=
  Real.sqrt (skk ^ 3 * sll ^ 3) / sigmaComb skk sll ^ 3 * Real.sqrt (ekk * ell)

/-- Modelled from the spec: explicit overrides in the parameter set take precedence
over computed combinations. -/
def resolvePair (ov : Option ℝ) (comb : ℝ) : ℝ := ov.getD comb

/-- The resolved cross-diameter matrix: the override entry when present, the
arithmetic-mean combination otherwise. -/
noncomputable def sigma_kl (sig : ℕ → ℝ) (ov : ℕ → ℕ → Option ℝ) (k l : ℕ) : ℝ :=
  resolvePair (ov k l) (sigmaComb (sig k) (sig l))

/-- The resolved cross-exponent matrix (used for both `lr_kl` and `la_kl`): the
override entry when present, the Mie exponent combination otherwise. -/
noncomputable def lam_kl (lam : ℕ → ℝ) (ov : ℕ → ℕ → Option ℝ) (k l : ℕ) : ℝ :=
  resolvePair (ov k l) (lambdaComb (lam k) (lam l))

/-- The resolved cross-energy matrix: the override entry when present, the
diameter-weighted geometric-mean combination otherwise. -/
noncomputable def eps_kl (sig eps : ℕ → ℝ) (ov : ℕ → ℕ → Option ℝ) (k l : ℕ) : ℝ :=
  resolvePair (ov k l) (epsComb (sig k) (sig l) (eps k) (eps l))

/-- The empty override table (no explicit unlike parameters). -/
def noOv : ℕ → ℕ → Option ℝ := fun _ _ => none

/-- Heptane group diameters from the notebook: CH3 (index 0) 4.0772 Å,
CH2 (index 1) 4.8801 Å. -/
def hepSig : ℕ → ℝ := fun k => if k = 0 then 4.0772 else 4.8801

/-- Heptane repulsive exponents from the notebook: CH3 15.05, CH2 19.871. -/
def hepLr : ℕ → ℝ := fun k => if k = 0 then 15.05 else 19.871

/-- Heptane attractive exponents from the notebook: both 6. -/
def hepLa : ℕ → ℝ := fun _ => 6

/-- Mixture repulsive like exponents from the notebook (H2O index 0, CH3 index 1,
CH2 index 2): 17.02, 15.05, 19.871. -/
def mixLr : ℕ → ℝ := fun k => if k = 0 then 17.02 else if k = 1 then 15.05 else 19.871

/-- The explicit unlike repulsive-exponent overrides recorded for the mixture:
the database pairs (H2O, CH3) and (H2O, CH2) carry the fitted value 100. -/
def mixLrOv : ℕ → ℕ → Option ℝ := fun k l =>
  if (k = 0 ∧ (l = 1 ∨ l = 2)) ∨ (l = 0 ∧ (k = 1 ∨ k = 2)) then some 100 else none

/-! ### The pure-fluid SGT integrand (spec §4.5; source line
`tenint = np.nan_to_num(np.sqrt(2*dOm))` quoted in the notebook's warning) -/

/-- numpy's square root on a scalar: a negative argument yields NaN, modelled as
`none`; otherwise the real square root. -/
noncomputable def npSqrt (x : ℝ) : Option ℝ := if x < 0 then none else some (Real.sqrt x)

/-- numpy's `nan_to_num` with default arguments: NaN (modelled as `none`)
becomes 0, any other value passes through. -/
def nan_to_num (o : Option ℝ) : ℝ := o.getD 0

/-- The gradient-energy integrand of `sgt_pure` at one density node, from the
source line `tenint = np.nan_to_num(np.sqrt(2*dOm))`. -/
noncomputable def tenint (dOm : ℝ) : ℝ := nan_to_num (npSqrt (2 * dOm))

/-! ### The three-phase solver vlleb (spec §4.4): Newton iteration on the unknown
vector, with either T or P held fixed by the specification -/

/-- The state of a binary three-phase calculation: the first-component mole
fractions of the two liquid phases and the vapor phase, plus temperature and
pressure. -/
structure VLLEState (α : Type) where
  x1 : α
  w1 : α
  y1 : α
  T : α
  P : α

/-- The specification argument of vlleb: which of T and P is held fixed. -/
inductive VLLESpec where
  | specT : VLLESpec
  | specP : VLLESpec

/-- The solution object vlleb returns with full_output: the final state together
with the solver diagnostics (residual norm and iteration count). -/
structure VLLEResult (α : Type) where
  state : VLLEState α
  error : α
  nfev : ℕ

/-- Modelled from the spec: one Newton step of vlleb updates the vector of
unknowns — the three phase compositions and the free variable (P when T is
specified, T when P is specified); the specified variable is not among the
unknowns. `newton` is the update direction obtained from the Jacobian of the
isofugacity residuals. -/
def vllebStep {α : Type} [LinearOrderedField α]
    (newton : VLLEState α → α × α × α × α) (sp : VLLESpec) (s : VLLEState α) :
    VLLEState α :=
  let d := newton s
  match sp with
  | VLLESpec.specT => ⟨s.x1 - d.1, s.w1 - d.2.1, s.y1 - d.2.2.1, s.T, s.P - d.2.2.2⟩
  | VLLESpec.specP => ⟨s.x1 - d.1, s.w1 - d.2.1, s.y1 - d.2.2.1, s.T - d.2.2.2, s.P⟩

/-- Modelled from the spec: the vlleb iteration loop with a residual-norm stopping
test and an iteration cap; converged or not, it returns a result carrying the final
state, the final residual norm and the iteration count. -/
def vllebIter {α : Type} [LinearOrderedField α]
    (res : VLLEState α → α) (newton : VLLEState α → α × α × α × α)
    (sp : VLLESpec) (tol : α) : ℕ → VLLEState α → ℕ → VLLEResult α
  | 0, s, n => ⟨s, res s, n⟩
  | fuel + 1, s, n =>
    if res s ≤ tol then ⟨s, res s, n⟩
    else vllebIter res newton sp tol fuel (vllebStep newton sp s) (n + 1)

/-- Modelled from the spec: `vlleb` with full_output runs the Newton loop from the
initial guesses and returns the solution object with its diagnostics. -/
def vlleb {α : Type} [LinearOrderedField α]
    (res : VLLEState α → α) (newton : VLLEState α → α × α × α × α)
    (sp : VLLESpec) (tol : α) (maxiter : ℕ) (s0 : VLLEState α) : VLLEResult α :=
  vllebIter res newton sp tol maxiter s0 0

/-! ### Mixture construction (spec §3; notebook 9) -/

/-- A group-contribution component: the ordered list of its group names and the
per-group occurrence counts (for example water is the single group H2O with
count 1). -/
structure GCComponent where
  subgroups : List String
  vki : List ℕ

/-- A mixture: an ordered sequence of components. -/
structure GCMixture where
  components : List GCComponent

/-- Modelled from the spec/notebook: `mixture(c1, c2)` creates a binary mixture. -/
def mixture (c1 c2 : GCComponent) : GCMixture := ⟨[c1, c2]⟩

/-- Modelled from the spec/notebook: `mixture.add_component` (also reachable as the
`+` operator) appends one more component to the mixture. -/
def add_component (m : GCMixture) (c : GCComponent) : GCMixture :=
  ⟨m.components ++ [c]⟩

/-- The mixture-level group-name array: one block of group names per component, in
component order. -/
def GCMixture.subgroups (m : GCMixture) : List String :=
  (m.components.map GCComponent.subgroups).flatten

/-- The mixture-level group-count array: one group-count row per component, in
component order. -/
def GCMixture.vki (m : GCMixture) : List ℕ :=
  (m.components.map GCComponent.vki).flatten

/-- Water from the notebook: a single H2O group. -/
def water : GCComponent := ⟨["H2O"], [1]⟩

/-- Butanol from the notebook: groups CH3, CH2, CH2OH, one of each. -/
def butanol : GCComponent := ⟨["CH3", "CH2", "CH2OH"], [1, 1, 1]⟩

/-- Ethanol from the notebook: groups CH3, CH2OH, one of each. -/
def ethanol : GCComponent := ⟨["CH3", "CH2OH"], [1, 1]⟩

/-- 2-butanol from the notebook: two CH3 groups, one CH2, one CHOH. -/
def butanol2 : GCComponent := ⟨["CH3", "CH2", "CHOH"], [2, 1, 1]⟩

/-! ### Unit conversion between component-level and EoS-level parameters
(spec §6; notebook 9) -/

/-- The Boltzmann constant the package's unit conversion uses, in J/K (its value is
recovered to the full printed precision from every energy entry of the notebook's
eos outputs). -/
def kB : ℚ := 1.3806488e-23

/-- Group-level parameters as a component object exposes them: energies in kelvin,
distances in ångström, association volume in cubic ångström, the remaining
parameters dimensionless. -/
structure GroupRecord where
  eps_kk : ℚ
  sigma_kk : ℚ
  epsAB_kl : ℚ
  kAB_kl : ℚ
  lr_kk : ℚ
  la_kk : ℚ
  Sk : ℚ
  vk : ℚ

/-- Modelled from the spec: the EoS object stores the component parameters in
absolute SI units — energies multiplied by the Boltzmann constant (K to J),
distances by 1e-10 (Å to m), association volumes by 1e-30 (cubic Å to cubic m) —
while the dimensionless parameters (lr, la, Sk, vk) are unchanged. -/
def toSI (g : GroupRecord) : GroupRecord :=
  ⟨kB * g.eps_kk, 1e-10 * g.sigma_kk, kB * g.epsAB_kl, 1e-30 * g.kAB_kl,
   g.lr_kk, g.la_kk, g.Sk, g.vk⟩

/-- The CH3 group record (component-level units) from the notebook. -/
def ch3 : GroupRecord := ⟨256.77, 4.0772, 0, 0, 15.05, 6, 0.57255, 1⟩

/-- The CH2 group record (component-level units) from the notebook. -/
def ch2 : GroupRecord := ⟨473.39, 4.8801, 0, 0, 19.871, 6, 0.22932, 1⟩

/-- The H2O group record from the notebook, carrying its H2O–CH3 cross-association
entries (epsAB 1985.4 K, kAB 101.69 cubic Å). -/
def h2oRec : GroupRecord := ⟨266.68, 3.0063, 1985.4, 101.69, 17.02, 6, 1, 1⟩

end SGTPy

namespace SGTPy

/-! ### Theorems -/

theorem sigmaComb_comm (a b : ℝ) : sigmaComb a b = sigmaComb b a := by
  simp [sigmaComb, add_comm]

theorem lambdaComb_comm (a b : ℝ) : lambdaComb a b = lambdaComb b a := by
  simp [lambdaComb, mul_comm]

theorem epsComb_comm (a b c d : ℝ) : epsComb a b c d = epsComb b a d c := by
  simp [epsComb, sigmaComb, add_comm, mul_comm]

theorem lambdaComb_self (a : ℝ) (h : 3 ≤ a) : lambdaComb a a = a := by
  unfold lambdaComb
  rw [Real.sqrt_mul_self (by linarith)]
  ring

theorem sigmaComb_self (a : ℝ) : sigmaComb a a = a := by
  unfold sigmaComb; ring

theorem epsComb_self (s e : ℝ) (hs : 0 < s) (he : 0 ≤ e) : epsComb s s e e = e := by
  unfold epsComb
  rw [sigmaComb_self, Real.sqrt_mul_self (by positivity), Real.sqrt_mul_self he,
    div_self (by positivity)]
  ring

/-- C3: for every group pair (k,l) of a resolved component or mixture, the combined
unlike parameter matrices are symmetric (`sigma_kl = sigma_lk`, `eps_kl = eps_lk`,
`lr_kl = lr_lk`, `la_kl = la_lk`) and every diagonal entry equals the corresponding
like (kk) parameter exactly, given that the explicit override tables are symmetric
and hold no diagonal entries, diameters are positive, energies nonnegative and Mie
exponents at least 3 (all true of the SAFT-γ-Mie database values). -/
theorem kl_matrices_symmetric_diagonal_C3
    (sig eps lr la : ℕ → ℝ) (ovS ovE ovR ovA : ℕ → ℕ → Option ℝ)
    (hS : ∀ k l, ovS k l = ovS l k) (hE : ∀ k l, ovE k l = ovE l k)
    (hR : ∀ k l, ovR k l = ovR l k) (hA : ∀ k l, ovA k l = ovA l k)
    (hSd : ∀ k, ovS k k = none) (hEd : ∀ k, ovE k k = none)
    (hRd : ∀ k, ovR k k = none) (hAd : ∀ k, ovA k k = none)
    (hsig : ∀ k, 0 < sig k) (heps : ∀ k, 0 ≤ eps k)
    (hlr : ∀ k, 3 ≤ lr k) (hla : ∀ k, 3 ≤ la k) (k l : ℕ) :
    (sigma_kl sig ovS k l = sigma_kl sig ovS l k ∧
     eps_kl sig eps ovE k l = eps_kl sig eps ovE l k ∧
     lam_kl lr ovR k l = lam_kl lr ovR l k ∧
     lam_kl la ovA k l = lam_kl la ovA l k) ∧
    (sigma_kl sig ovS k k = sig k ∧
     eps_kl sig eps ovE k k = eps k ∧
     lam_kl lr ovR k k = lr k ∧
     lam_kl la ovA k k = la k) := by
  refine ⟨⟨?_, ?_, ?_, ?_⟩, ?_, ?_, ?_, ?_⟩
  · rw [sigma_kl, sigma_kl, hS, sigmaComb_comm]
  · rw [eps_kl, eps_kl, hE, epsComb_comm]
  · rw [lam_kl, lam_kl, hR, lambdaComb_comm]
  · rw [lam_kl, lam_kl, hA, lambdaComb_comm]
  · rw [sigma_kl, hSd, resolvePair, Option.getD_none, sigmaComb_self]
  · rw [eps_kl, hEd, resolvePair, Option.getD_none, epsComb_self _ _ (hsig k) (heps k)]
  · rw [lam_kl, hRd, resolvePair, Option.getD_none, lambdaComb_self _ (hlr k)]
  · rw [lam_kl, hAd, resolvePair, Option.getD_none, lambdaComb_self _ (hla k)]

theorem kl_matrices_symmetric_diagonal_C3_witness :
    ((∀ k l : ℕ, noOv k l = noOv l k) ∧ (∀ k : ℕ, noOv k k = none) ∧
     (∀ k : ℕ, 0 < hepSig k) ∧ (∀ k : ℕ, (0:ℝ) ≤ 256.77) ∧
     (∀ k : ℕ, 3 ≤ hepLr k) ∧ (∀ k : ℕ, (3:ℝ) ≤ 6)) ∧
    ((sigma_kl hepSig noOv 0 1 = sigma_kl hepSig noOv 1 0 ∧
      eps_kl hepSig (fun _ => 256.77) noOv 0 1 = eps_kl hepSig (fun _ => 256.77) noOv 1 0 ∧
      lam_kl hepLr noOv 0 1 = lam_kl hepLr noOv 1 0 ∧
      lam_kl hepLa noOv 0 1 = lam_kl hepLa noOv 1 0) ∧
     (sigma_kl hepSig noOv 0 0 = hepSig 0 ∧
      eps_kl hepSig (fun _ => 256.77) noOv 0 0 = 256.77 ∧
      lam_kl hepLr noOv 0 0 = hepLr 0 ∧
      lam_kl hepLa noOv 0 0 = hepLa 0)) := by
  have hsig : ∀ k : ℕ, 0 < hepSig k := by
    intro k; unfold hepSig; split <;> norm_num
  have hlr : ∀ k : ℕ, 3 ≤ hepLr k := by
    intro k; unfold hepLr; split <;> norm_num
  have hla : ∀ k : ℕ, 3 ≤ hepLa k := by
    intro k; unfold hepLa; norm_num
  exact ⟨⟨fun _ _ => rfl, fun _ => rfl, hsig, fun _ => by norm_num, hlr, fun _ => by norm_num⟩,
    kl_matrices_symmetric_diagonal_C3 hepSig (fun _ => 256.77) hepLr hepLa noOv noOv noOv noOv
      (fun _ _ => rfl) (fun _ _ => rfl) (fun _ _ => rfl) (fun _ _ => rfl)
      (fun _ => rfl) (fun _ => rfl) (fun _ => rfl) (fun _ => rfl)
      hsig (fun _ => by norm_num) hlr hla 0 1⟩

/-- C4: for every group pair (k,l) not explicitly overridden, the combination
rules give the cross diameter as the arithmetic mean and the cross Mie exponent as
`3 + sqrt ((lam_kk - 3) * (lam_ll - 3))`; at the notebook's heptane CH3–CH2 pair
this reproduces the recorded values `sigma_kl = 4.47865` Å exactly and
`lr_kl = 17.25817485` to within 1e-8 (the printed precision), and `la_kl = 6`. -/
theorem combination_rules_C4
    (sig lam : ℕ → ℝ) (ovS ovL : ℕ → ℕ → Option ℝ) (k l : ℕ)
    (hS : ovS k l = none) (hL : ovL k l = none) :
    sigma_kl sig ovS k l = (sig k + sig l) / 2 ∧
    lam_kl lam ovL k l = 3 + Real.sqrt ((lam k - 3) * (lam l - 3)) ∧
    sigma_kl hepSig noOv 0 1 = 4.47865 ∧
    |lam_kl hepLr noOv 0 1 - 17.25817485| < 1e-8 ∧
    lam_kl hepLa noOv 0 1 = 6 := by
  refine ⟨?_, ?_, ?_, ?_, ?_⟩
  · rw [sigma_kl, hS]; rfl
  · rw [lam_kl, hL]; rfl
  · show sigmaComb (hepSig 0) (hepSig 1) = 4.47865
    unfold hepSig sigmaComb; norm_num
  · have hval : lam_kl hepLr noOv 0 1 = 3 + Real.sqrt ((15.05 - 3) * (19.871 - 3)) := by
      show lambdaComb (hepLr 0) (hepLr 1) = _
      unfold hepLr lambdaComb
      norm_num
    have h1 : Real.sqrt ((15.05 - 3) * (19.871 - 3)) < 14.25817486 := by
      rw [Real.sqrt_lt' (by norm_num)]
      norm_num
    have h2 : (14.25817484 : ℝ) < Real.sqrt ((15.05 - 3) * (19.871 - 3)) := by
      rw [show ((15.05:ℝ) - 3) * (19.871 - 3) = 203.29555 by norm_num]
      rw [show (14.25817484 : ℝ) = Real.sqrt (14.25817484 ^ 2) by
        rw [Real.sqrt_sq (by norm_num)]]
      apply Real.sqrt_lt_sqrt (by positivity)
      norm_num
    rw [hval, abs_lt]
    constructor <;> linarith
  · show lambdaComb (hepLa 0) (hepLa 1) = 6
    unfold hepLa lambdaComb
    rw [show ((6:ℝ) - 3) * (6 - 3) = 3 * 3 by norm_num, Real.sqrt_mul_self (by norm_num)]
    norm_num

theorem combination_rules_C4_witness :
    (noOv 0 1 = none) ∧
    (sigma_kl hepSig noOv 0 1 = (hepSig 0 + hepSig 1) / 2 ∧
     lam_kl hepLr noOv 0 1 = 3 + Real.sqrt ((hepLr 0 - 3) * (hepLr 1 - 3)) ∧
     sigma_kl hepSig noOv 0 1 = 4.47865 ∧
     |lam_kl hepLr noOv 0 1 - 17.25817485| < 1e-8 ∧
     lam_kl hepLa noOv 0 1 = 6) :=
  ⟨rfl, combination_rules_C4 hepSig hepLr noOv noOv 0 1 rfl rfl⟩

/-- C5: for every group pair with an explicit unlike-interaction entry, the
resolved cross parameter is the override value, not the computed combination; at
the notebook's mixture the H2O–CH3 and H2O–CH2 repulsive exponents resolve to the
database value 100, whereas the exponent combination rule for H2O–CH3 would give
about 16 (between 15.9 and 16.1). -/
theorem override_precedence_C5
    (lam : ℕ → ℝ) (ov : ℕ → ℕ → Option ℝ) (k l : ℕ) (v : ℝ)
    (h : ov k l = some v) :
    lam_kl lam ov k l = v ∧
    lam_kl mixLr mixLrOv 0 1 = 100 ∧
    lam_kl mixLr mixLrOv 0 2 = 100 ∧
    15.9 < lambdaComb (mixLr 0) (mixLr 1) ∧
    lambdaComb (mixLr 0) (mixLr 1) < 16.1 := by
  refine ⟨?_, ?_, ?_, ?_, ?_⟩
  · rw [lam_kl, h]; rfl
  · rfl
  · rfl
  · show (15.9:ℝ) < lambdaComb 17.02 15.05
    unfold lambdaComb
    have h2 : (12.9 : ℝ) < Real.sqrt ((17.02 - 3) * (15.05 - 3)) := by
      rw [show ((17.02:ℝ) - 3) * (15.05 - 3) = 168.941 by norm_num]
      rw [show (12.9 : ℝ) = Real.sqrt (12.9 ^ 2) by rw [Real.sqrt_sq (by norm_num)]]
      apply Real.sqrt_lt_sqrt (by positivity)
      norm_num
    linarith
  · show lambdaComb 17.02 15.05 < (16.1:ℝ)
    unfold lambdaComb
    have h1 : Real.sqrt ((17.02 - 3) * (15.05 - 3)) < 13.1 := by
      rw [Real.sqrt_lt' (by norm_num)]
      norm_num
    linarith

theorem override_precedence_C5_witness :
    (mixLrOv 0 1 = some 100) ∧
    (lam_kl mixLr mixLrOv 0 1 = 100 ∧
     lam_kl mixLr mixLrOv 0 1 = 100 ∧
     lam_kl mixLr mixLrOv 0 2 = 100 ∧
     15.9 < lambdaComb (mixLr 0) (mixLr 1) ∧
     lambdaComb (mixLr 0) (mixLr 1) < 16.1) :=
  ⟨rfl, override_precedence_C5 mixLr mixLrOv 0 1 100 rfl⟩

/-- C1: in the pure-fluid SGT integration, the raw square root is NaN exactly on
negative arguments, and the guarded integrand `nan_to_num (sqrt (2 * dOm))` equals
the square root of the argument clamped to zero — a real, non-NaN, nonnegative
number at every density node, so no NaN propagates into the returned tension. -/
theorem sgt_pure_integrand_clamped_C1 (dOm : ℝ) :
    (npSqrt (2 * dOm) = none ↔ dOm < 0) ∧
    tenint dOm = Real.sqrt (2 * max dOm 0) ∧
    0 ≤ tenint dOm := by
  unfold tenint nan_to_num npSqrt
  by_cases h : 2 * dOm < 0
  · rw [if_pos h]
    have hneg : dOm < 0 := by linarith
    refine ⟨by simp [h, hneg], ?_, by simp⟩
    rw [max_eq_right hneg.le]
    simp
  · rw [if_neg h]
    have hnn : 0 ≤ dOm := by linarith [not_lt.mp h]
    refine ⟨by simp [h, not_lt.mp h]; linarith, ?_, Real.sqrt_nonneg _⟩
    rw [max_eq_left hnn]
    rfl

theorem vllebIter_diag {α : Type} [LinearOrderedField α]
    (res : VLLEState α → α) (newton : VLLEState α → α × α × α × α)
    (sp : VLLESpec) (tol : α) :
    ∀ (fuel : ℕ) (s : VLLEState α) (n : ℕ),
      (vllebIter res newton sp tol fuel s n).error
          = res (vllebIter res newton sp tol fuel s n).state ∧
      (vllebIter res newton sp tol fuel s n).nfev ≤ n + fuel ∧
      ((vllebIter res newton sp tol fuel s n).error ≤ tol ∨
       (vllebIter res newton sp tol fuel s n).nfev = n + fuel) := by
  intro fuel
  induction fuel with
  | zero => exact fun s n => ⟨rfl, Nat.le_refl _, Or.inr rfl⟩
  | succ f ih =>
    intro s n
    simp only [vllebIter]
    by_cases h : res s ≤ tol
    · rw [if_pos h]
      exact ⟨rfl, Nat.le_add_right _ _, Or.inl h⟩
    · rw [if_neg h]
      obtain ⟨h1, h2, h3⟩ := ih (vllebStep newton sp s) (n + 1)
      refine ⟨h1, by omega, ?_⟩
      rcases h3 with h3 | h3
      · exact Or.inl h3
      · exact Or.inr (by omega)

/-- C8: the modelled vlleb solver always returns its solution object with the
convergence diagnostics — the error field is the residual norm at the returned
state and nfev is the iteration count, bounded by the iteration cap — and
non-convergence is reported through these fields rather than thrown or swallowed:
whenever the returned error is not within tolerance, the full iteration budget was
spent (nfev = maxiter), so the caller can detect it and retry. -/
theorem vlleb_diagnostics_C8 {α : Type} [LinearOrderedField α]
    (res : VLLEState α → α) (newton : VLLEState α → α × α × α × α)
    (sp : VLLESpec) (tol : α) (maxiter : ℕ) (s0 : VLLEState α) :
    (vlleb res newton sp tol maxiter s0).error
        = res (vlleb res newton sp tol maxiter s0).state ∧
    (vlleb res newton sp tol maxiter s0).nfev ≤ maxiter ∧
    ((vlleb res newton sp tol maxiter s0).error ≤ tol ∨
     (vlleb res newton sp tol maxiter s0).nfev = maxiter) := by
  have h := vllebIter_diag res newton sp tol maxiter s0 0
  simpa [vlleb] using h

theorem vllebIter_fixed_T {α : Type} [LinearOrderedField α]
    (res : VLLEState α → α) (newton : VLLEState α → α × α × α × α) (tol : α) :
    ∀ (fuel : ℕ) (s : VLLEState α) (n : ℕ),
      (vllebIter res newton VLLESpec.specT tol fuel s n).state.T = s.T := by
  intro fuel
  induction fuel with
  | zero => exact fun s n => rfl
  | succ f ih =>
    intro s n
    simp only [vllebIter]
    by_cases h : res s ≤ tol
    · rw [if_pos h]
    · rw [if_neg h]
      rw [ih (vllebStep newton VLLESpec.specT s) (n + 1)]
      rfl

theorem vllebIter_fixed_P {α : Type} [LinearOrderedField α]
    (res : VLLEState α → α) (newton : VLLEState α → α × α × α × α) (tol : α) :
    ∀ (fuel : ℕ) (s : VLLEState α) (n : ℕ),
      (vllebIter res newton VLLESpec.specP tol fuel s n).state.P = s.P := by
  intro fuel
  induction fuel with
  | zero => exact fun s n => rfl
  | succ f ih =>
    intro s n
    simp only [vllebIter]
    by_cases h : res s ≤ tol
    · rw [if_pos h]
    · rw [if_neg h]
      rw [ih (vllebStep newton VLLESpec.specP s) (n + 1)]
      rfl

/-- C10: vlleb leaves the specified variable unchanged in its output — with
specification 'T' the returned state's temperature equals the input temperature
exactly and only the pressure is iterated on, and with specification 'P' the
returned pressure equals the input pressure exactly and only the temperature is
iterated on. -/
theorem vlleb_spec_frame_C10 {α : Type} [LinearOrderedField α]
    (res : VLLEState α → α) (newton : VLLEState α → α × α × α × α)
    (tol : α) (maxiter : ℕ) (s0 : VLLEState α) :
    (vlleb res newton VLLESpec.specT tol maxiter s0).state.T = s0.T ∧
    (vlleb res newton VLLESpec.specP tol maxiter s0).state.P = s0.P :=
  ⟨vllebIter_fixed_T res newton tol maxiter s0 0,
   vllebIter_fixed_P res newton tol maxiter s0 0⟩

/-- C9: for every mixture built from components, the mixture-level group arrays
are indexed by the union of all components' groups — a group name is in the
mixture's subgroups exactly when it is a group of one of its components — with one
group-count row per component; the notebook's three-component
water/butanol/ethanol mixture and the two-component 2-butanol/water mixture expose
exactly the recorded group and count arrays. -/
theorem mixture_groups_union_C9 (cs : List GCComponent) (g : String) (c0 : GCComponent) :
    (g ∈ (GCMixture.mk cs).subgroups ↔ ∃ c, c ∈ cs ∧ g ∈ c.subgroups) ∧
    (GCMixture.mk cs).vki = (cs.map GCComponent.vki).flatten ∧
    (add_component (GCMixture.mk cs) c0).components = cs ++ [c0] ∧
    (add_component (mixture water butanol) ethanol).subgroups
        = ["H2O", "CH3", "CH2", "CH2OH", "CH3", "CH2OH"] ∧
    (add_component (mixture water butanol) ethanol).vki = [1, 1, 1, 1, 1, 1] ∧
    (mixture butanol2 water).subgroups = ["CH3", "CH2", "CHOH", "H2O"] ∧
    (mixture butanol2 water).vki = [2, 1, 1, 1] := by
  refine ⟨?_, rfl, rfl, rfl, rfl, rfl, rfl⟩
  simp only [GCMixture.subgroups, List.mem_flatten, List.mem_map]
  constructor
  · rintro ⟨l, ⟨c, hc, hl⟩, hg⟩
    exact ⟨c, hc, hl ▸ hg⟩
  · rintro ⟨c, hc, hg⟩
    exact ⟨c.subgroups, ⟨c, hc, rfl⟩, hg⟩

/-- C7: the EoS object stores exactly the component-level parameters converted to
absolute SI units — eps_kk and epsAB_kl multiplied by the Boltzmann constant
(K to J), sigma_kk by 1e-10 (Å to m), kAB_kl by 1e-30 (cubic Å to cubic m) — while
lr, la, Sk and vk are unchanged; at the notebook's values this reproduces the
printed eos entries: 256.77 K to 3.54509192e-21 J, 473.39 K to 6.53585335e-21 J,
266.68 K to 3.68191422e-21 J, 1985.4 K to 2.74114013e-20 J (each to the printed
precision), 4.0772 Å to 4.0772e-10 m and 101.69 cubic Å to 1.0169e-28 cubic m
exactly. -/
theorem eos_si_units_C7 (g : GroupRecord) :
    ((toSI g).eps_kk = kB * g.eps_kk ∧
     (toSI g).sigma_kk = 1e-10 * g.sigma_kk ∧
     (toSI g).epsAB_kl = kB * g.epsAB_kl ∧
     (toSI g).kAB_kl = 1e-30 * g.kAB_kl ∧
     (toSI g).lr_kk = g.lr_kk ∧ (toSI g).la_kk = g.la_kk ∧
     (toSI g).Sk = g.Sk ∧ (toSI g).vk = g.vk) ∧
    (|(toSI ch3).eps_kk - 3.54509192e-21| < 5e-30 ∧
     (toSI ch3).sigma_kk = 4.0772e-10 ∧
     |(toSI ch2).eps_kk - 6.53585335e-21| < 5e-30 ∧
     |(toSI h2oRec).eps_kk - 3.68191422e-21| < 5e-30 ∧
     |(toSI h2oRec).epsAB_kl - 2.74114013e-20| < 5e-29 ∧
     (toSI h2oRec).kAB_kl = 1.0169e-28) := by
  refine ⟨⟨rfl, rfl, rfl, rfl, rfl, rfl, rfl, rfl⟩, ?_, ?_, ?_, ?_, ?_, ?_⟩
  · rw [abs_lt]; constructor <;> norm_num [toSI, ch3, kB]
  · norm_num [toSI, ch3]
  · rw [abs_lt]; constructor <;> norm_num [toSI, ch2, kB]
  · rw [abs_lt]; constructor <;> norm_num [toSI, h2oRec, kB]
  · rw [abs_lt]; constructor <;> norm_num [toSI, h2oRec, kB]
  · norm_num [toSI, h2oRec]

end SGTPy
